import Mathlib

/-!
Verification of the billiard game server's authoritative game-state engine
(`src/server.js`): collision-to-score resolution, touch attribution, session
lifecycle, the shoot cooldown gate, and game (re)start.

The embedding is shallow: JavaScript objects become Lean structures, the
`players` object becomes an association list keyed by socket id, calls to
`Math.random()` become explicit rational parameters in `[0, 1)`, and
`Math.cos` / `Math.sin` are abstracted as function parameters.  `Date.now()`
timestamps are naturals (milliseconds).
-/

namespace Billiard

/-- `TABLE_WIDTH` (server.js line 27). -/
def TABLE_WIDTH : ℚ := 1600

/-- `TABLE_HEIGHT` (server.js line 28). -/
def TABLE_HEIGHT : ℚ := 900

/-- `BALL_RADIUS` (server.js line 32). -/
def BALL_RADIUS : ℚ := 20

/-- `PLAYER_BALL_RADIUS` (server.js line 33). -/
def PLAYER_BALL_RADIUS : ℚ := 28

/-- `BLACK_BALL_RADIUS` (server.js line 34). -/
def BLACK_BALL_RADIUS : ℚ := 22

/-- `COOLDOWN_TIME` in milliseconds (server.js line 35). -/
def COOLDOWN_TIME : ℕ := 750

/-- The `label` strings the server attaches to physics bodies. -/
inductive Label where
  | Wall
  | Hole
  | ScoreBall
  | BlackBall
  | PlayerBall
deriving DecidableEq

/-- The `render.fillStyle` values the server uses. -/
inductive Color where
  | white
  | red
  | black
  | hsl (hue : ℤ)
deriving DecidableEq

/-- A Matter.js body together with the fields the server attaches to it
(`playerId`, `lastTouchedBy`). -/
structure Body where
  label : Label
  position : ℚ × ℚ
  velocity : ℚ × ℚ
  circleRadius : ℚ
  color : Color
  playerId : Option String
  lastTouchedBy : Option String
deriving DecidableEq

/-- An entry of the `players` object: `{ body, score, cooldown, name, color }`
(server.js lines 261-267). -/
structure Player where
  body : Body
  score : ℤ
  cooldown : ℕ
  name : String
  color : Color
deriving DecidableEq

/-- JavaScript object lookup `players[id]` on the association-list model. -/
def plookup (id : String) : List (String × Player) → Option Player
  | [] => none
  | kv :: rest => if kv.1 = id then some kv.2 else plookup id rest

/-- In-place mutation of one entry of the `players` object
(e.g. `players[id].score += 1`). -/
def updatePlayer (m : List (String × Player)) (id : String) (f : Player → Player) :
    List (String × Player) :=
  m.map fun kv => if kv.1 = id then (kv.1, f kv.2) else kv

/-- The server's mutable globals `players`, `scoreBalls`, `blackBall`,
`gameActive` (server.js lines 70-73). -/
structure GameState where
  players : List (String × Player)
  scoreBalls : List Body
  blackBall : Option Body
  gameActive : Bool
deriving DecidableEq

/-- `createScoreBall` (server.js lines 75-87): the three `Math.random()` draws
(x, y, fill style) are passed in as `rx ry rc`. -/
def createScoreBall (rx ry rc : ℚ) : Body :=
  { label := Label.ScoreBall
    position := (rx * (TABLE_WIDTH - 200) + 100, ry * (TABLE_HEIGHT - 200) + 100)
    velocity := (0, 0)
    circleRadius := BALL_RADIUS
    color := if rc > 1/2 then Color.white else Color.red
    playerId := none
    lastTouchedBy := none }

/-- `createBlackBall` (server.js lines 89-100). -/
def createBlackBall : Body :=
  { label := Label.BlackBall
    position := (TABLE_WIDTH / 2, TABLE_HEIGHT / 2)
    velocity := (0, 0)
    circleRadius := BLACK_BALL_RADIUS
    color := Color.black
    playerId := none
    lastTouchedBy := none }

/-- `startGame(ballCount)` (server.js lines 102-127): clears all score balls and
the black ball, creates `ballCount` fresh score balls (ball `i` drawing its
randoms from `rand i`), creates a fresh black ball, resets every connected
player's score to 0 and sets `gameActive`. -/
def startGame (gs : GameState) (ballCount : ℕ) (rand : ℕ → ℚ × ℚ × ℚ) : GameState :=
  { players := gs.players.map fun kv => (kv.1, { kv.2 with score := 0 })
    scoreBalls :=
      (List.range ballCount).map fun i => createScoreBall (rand i).1 (rand i).2.1 (rand i).2.2
    blackBall := some createBlackBall
    gameActive := true }

/-- The state of the globals before any code after line 73 runs:
`players = {}`, `scoreBalls = []`, `blackBall = null`, `gameActive = false`. -/
def emptyState : GameState :=
  { players := [], scoreBalls := [], blackBall := none, gameActive := false }

/-- The state after the top-level `startGame(15)` call (server.js line 130). -/
def initialState (rand : ℕ → ℚ × ℚ × ℚ) : GameState :=
  startGame emptyState 15 rand

/-- `respawnScoreBall` (server.js lines 132-139). -/
def respawnScoreBall (ball : Body) (rx ry : ℚ) : Body :=
  { ball with
    position := (rx * (TABLE_WIDTH - 200) + 100, ry * (TABLE_HEIGHT - 200) + 100)
    velocity := (0, 0)
    lastTouchedBy := none }

/-- `respawnBlackBall` (server.js lines 141-145), acting on the black ball. -/
def respawnBlackBall (ball : Body) : Body :=
  { ball with
    position := (TABLE_WIDTH / 2, TABLE_HEIGHT / 2)
    velocity := (0, 0)
    lastTouchedBy := none }

/-- `respawnPlayer` (server.js lines 147-154). -/
def respawnPlayer (ball : Body) (rx ry : ℚ) : Body :=
  { ball with
    position := (rx * (TABLE_WIDTH - 200) + 100, ry * (TABLE_HEIGHT - 200) + 100)
    velocity := (0, 0)
    lastTouchedBy := none }

/-- `handleHoleCollision(ball)` (server.js lines 195-220): returns the mutated
`players` object and the mutated ball.  `rx ry` stand for the `Math.random()`
draws a respawn may make. -/
def handleHoleCollision (players : List (String × Player)) (ball : Body) (rx ry : ℚ) :
    List (String × Player) × Body :=
  if ball.label = Label.ScoreBall then
    let players1 :=
      match ball.lastTouchedBy with
      | some pid =>
          if (plookup pid players).isSome then
            updatePlayer players pid fun p => { p with score := p.score + 1 }
          else players
      | none => players
    (players1, respawnScoreBall ball rx ry)
  else if ball.label = Label.PlayerBall then
    match ball.playerId with
    | some victimId =>
        if (plookup victimId players).isSome then
          let p1 := updatePlayer players victimId fun p => { p with score := p.score - 5 }
          let p2 :=
            match ball.lastTouchedBy with
            | some killerId =>
                if killerId ≠ victimId ∧ (plookup killerId p1).isSome then
                  updatePlayer p1 killerId fun p => { p with score := p.score + 10 }
                else p1
            | none => p1
          (p2, respawnPlayer ball rx ry)
        else (players, ball)
    | none => (players, ball)
  else if ball.label = Label.BlackBall then
    let players1 :=
      match ball.lastTouchedBy with
      | some pid =>
          if (plookup pid players).isSome then
            updatePlayer players pid fun p => { p with score := 0 }
          else players
      | none => players
    (players1, respawnBlackBall ball)
  else (players, ball)

/-- The hole test opening the `collisionStart` pair loop (server.js
lines 169-178): the non-hole side of a pair containing a hole, else `none`. -/
def pairHoleBall (bodyA bodyB : Body) : Option Body :=
  if bodyA.label = Label.Hole then some bodyB
  else if bodyB.label = Label.Hole then some bodyA
  else none

/-- The touch-attribution step of the `collisionStart` pair loop (server.js
lines 180-191), reached only when the hole test fell through.  Returns
`some (updatedIsB, pid)` when `otherBody.lastTouchedBy = playerBody.playerId`
executes — `updatedIsB = true` means `bodyB` is the body written to — and
`none` when no attribution write happens. -/
def pairAttribution (bodyA bodyB : Body) : Option (Bool × Option String) :=
  if (pairHoleBall bodyA bodyB).isSome then none
  else if bodyA.label = Label.PlayerBall then
    if bodyB.label ≠ Label.Wall ∧ bodyB.label ≠ Label.Hole then
      some (true, bodyA.playerId)
    else none
  else if bodyB.label = Label.PlayerBall then
    if bodyA.label ≠ Label.Wall ∧ bodyA.label ≠ Label.Hole then
      some (false, bodyB.playerId)
    else none
  else none

/-- The bodies currently registered in the physics world apart from the static
walls and holes: score balls, the black ball, and every connected player's
ball.  `World.add` / `World.remove` keep the world in exactly this
correspondence with the globals. -/
def worldDynamicBodies (gs : GameState) : List Body :=
  gs.scoreBalls ++ gs.blackBall.toList ++ gs.players.map fun kv => kv.2.body

/-- The `startGame` socket handler's count computation
`Math.min(Math.max(data.ballCount || 15, 5), 50)` (server.js line 232).
`data.ballCount || 15` substitutes 15 only for the falsy values: an absent
field or `0`. -/
def jsBallCount (x : Option ℤ) : ℤ :=
  match x with
  | none => 15
  | some n => if n = 0 then 15 else n

/-- The clamped ball count the `startGame` handler passes on. -/
def clampBallCount (x : Option ℤ) : ℤ :=
  min (max (jsBallCount x) 5) 50

/-- Modelled from the spec's words, for comparison with `clampBallCount`:
"inputs ≤0 or absent default to 15 pre-clamp", then clamp to `[5, 50]`. -/
def specClampBallCount (x : Option ℤ) : ℤ :=
  min (max (match x with | none => 15 | some n => if n ≤ 0 then 15 else n) 5) 50

/-- The `startGame` socket handler (server.js lines 231-235): clamps the
requested count, runs `startGame`, and broadcasts the effective count
(returned here as the second component). -/
def startGameHandler (gs : GameState) (x : Option ℤ) (rand : ℕ → ℚ × ℚ × ℚ) :
    GameState × ℤ :=
  (startGame gs (clampBallCount x).toNat rand, clampBallCount x)

/-- The player ball built by the `joinGame` handler (server.js lines 244-257). -/
def createPlayerBall (id : String) (hue : ℤ) (rx ry : ℚ) : Body :=
  { label := Label.PlayerBall
    position := (rx * (TABLE_WIDTH - 200) + 100, ry * (TABLE_HEIGHT - 200) + 100)
    velocity := (0, 0)
    circleRadius := PLAYER_BALL_RADIUS
    color := Color.hsl hue
    playerId := some id
    lastTouchedBy := none }

/-- The `joinGame` socket handler (server.js lines 238-270): a no-op when the
id already has a session; otherwise creates the player ball and the `players`
entry with score 0, cooldown 0, name `"P-" ++` the id's first four characters,
and an hsl color with hue `⌊rhue·360⌋`. -/
def joinGame (gs : GameState) (id : String) (rhue rx ry : ℚ) : GameState :=
  if (plookup id gs.players).isSome then gs
  else
    let hue : ℤ := ⌊rhue * 360⌋
    let ball := createPlayerBall id hue rx ry
    { gs with
      players := gs.players ++
        [(id, { body := ball, score := 0, cooldown := 0,
                name := "P-" ++ id.take 4, color := Color.hsl hue })] }

/-- The payload of a `shoot` message: `{ force?, angle? }`. -/
structure ShootData where
  force : Option ℚ
  angle : Option ℚ
deriving DecidableEq

/-- The `shoot` socket handler (server.js lines 307-323), parametrised by the
cosine and sine functions.  Returns the mutated `players` object, the applied
force as `some (applicationPoint, forceVector)` when `Body.applyForce` ran,
and `some COOLDOWN_TIME` when `cooldownNotify` was emitted. -/
def shoot (cosF sinF : ℚ → ℚ) (players : List (String × Player)) (id : String)
    (data : ShootData) (now : ℕ) :
    List (String × Player) × Option ((ℚ × ℚ) × (ℚ × ℚ)) × Option ℕ :=
  match plookup id players with
  | none => (players, none, none)
  | some p =>
      if p.cooldown ≤ now then
        let forceMag := data.force.getD 0 * (3/10)
        let angle := data.angle.getD 0
        let force := (cosF angle * forceMag, sinF angle * forceMag)
        (updatePlayer players id fun q => { q with cooldown := now + COOLDOWN_TIME },
         some (p.body.position, force), some COOLDOWN_TIME)
      else (players, none, none)

/-- The `disconnect` socket handler (server.js lines 325-332): removes the
player's body from the world and deletes the `players` entry; a no-op for an
unknown id. -/
def disconnect (gs : GameState) (id : String) : GameState :=
  match plookup id gs.players with
  | none => gs
  | some _ => { gs with players := gs.players.filter fun kv => kv.1 != id }

/-! ### Association-list lemmas -/

theorem plookup_updatePlayer_self (m : List (String × Player)) (id : String)
    (f : Player → Player) :
    plookup id (updatePlayer m id f) = (plookup id m).map f := by
  induction m with
  | nil => rfl
  | cons kv rest ih =>
      by_cases h : kv.1 = id
      · simp [updatePlayer, plookup, h]
      · simpa [updatePlayer, plookup, h] using ih

theorem plookup_updatePlayer_ne (m : List (String × Player)) (id k : String)
    (f : Player → Player) (h : k ≠ id) :
    plookup k (updatePlayer m id f) = plookup k m := by
  have h2 : ¬(id = k) := fun e => h e.symm
  induction m with
  | nil => rfl
  | cons kv rest ih =>
      by_cases h1 : kv.1 = id
      · simpa [updatePlayer, plookup, h1, h2] using ih
      · by_cases h3 : kv.1 = k
        · simp [updatePlayer, plookup, h1, h3, h]
        · simpa [updatePlayer, plookup, h1, h3] using ih

theorem isSome_plookup_updatePlayer (m : List (String × Player)) (id k : String)
    (f : Player → Player) :
    (plookup k (updatePlayer m id f)).isSome = (plookup k m).isSome := by
  by_cases h : k = id
  · subst h; rw [plookup_updatePlayer_self]; cases plookup k m <;> rfl
  · rw [plookup_updatePlayer_ne m id k f h]

theorem plookup_map_score (m : List (String × Player)) (k : String)
    (f : Player → Player) :
    plookup k (m.map fun kv => (kv.1, f kv.2)) = (plookup k m).map f := by
  induction m with
  | nil => rfl
  | cons kv rest ih =>
      by_cases h : kv.1 = k
      · simp [plookup, h]
      · simpa [plookup, h] using ih

theorem plookup_append_new (m : List (String × Player)) (id : String) (r : Player)
    (h : plookup id m = none) :
    plookup id (m ++ [(id, r)]) = some r := by
  induction m with
  | nil => simp [plookup]
  | cons kv rest ih =>
      by_cases h1 : kv.1 = id
      · simp [plookup, h1] at h
      · simp only [plookup, h1, if_false, List.cons_append] at *
        exact ih h

theorem plookup_none_mem (m : List (String × Player)) (id : String)
    (h : plookup id m = none) : ∀ kv ∈ m, kv.1 ≠ id := by
  induction m with
  | nil => intro kv hm; cases hm
  | cons kv rest ih =>
      intro kv2 hm
      by_cases h1 : kv.1 = id
      · simp [plookup, h1] at h
      · simp only [plookup, h1, if_false] at h
        rcases List.mem_cons.mp hm with h2 | h2
        · rw [h2]; exact h1
        · exact ih h kv2 h2

/-! ### C1 — touch attribution -/

/-- A concrete player ball for counterexamples, owned by `"a"`. -/
def samplePlayerBallA : Body :=
  { label := Label.PlayerBall
    position := (200, 200)
    velocity := (0, 0)
    circleRadius := PLAYER_BALL_RADIUS
    color := Color.hsl 0
    playerId := some "a"
    lastTouchedBy := none }

/-- A concrete player ball for counterexamples, owned by `"b"`. -/
def samplePlayerBallB : Body :=
  { label := Label.PlayerBall
    position := (400, 200)
    velocity := (0, 0)
    circleRadius := PLAYER_BALL_RADIUS
    color := Color.hsl 120
    playerId := some "b"
    lastTouchedBy := none }

/-- C1 counterexample: a contact pair in which BOTH sides are PlayerBalls does
update attribution — `bodyB.lastTouchedBy` is set to `bodyA.playerId` — whereas
the claim says such a pair updates no attribution. -/
theorem c1_both_players_update :
    samplePlayerBallA.label = Label.PlayerBall ∧
    samplePlayerBallB.label = Label.PlayerBall ∧
    pairAttribution samplePlayerBallA samplePlayerBallB = some (true, some "a") := by
  decide

/-- C1 (amended): an attribution write happens iff neither side is a Hole, at
least one side is a PlayerBall, and the written side — `bodyB` whenever
`bodyA` is a PlayerBall, else `bodyA` — is not a Wall.  In particular a pair
of two PlayerBalls writes `bodyA.playerId` into `bodyB.lastTouchedBy`. -/
theorem c1_attribution_characterization (bodyA bodyB : Body) :
    ((pairAttribution bodyA bodyB).isSome ↔
      bodyA.label ≠ Label.Hole ∧ bodyB.label ≠ Label.Hole ∧
        ((bodyA.label = Label.PlayerBall ∧ bodyB.label ≠ Label.Wall) ∨
         (bodyA.label ≠ Label.PlayerBall ∧ bodyB.label = Label.PlayerBall ∧
           bodyA.label ≠ Label.Wall))) ∧
    (bodyA.label = Label.PlayerBall → bodyB.label = Label.PlayerBall →
      pairAttribution bodyA bodyB = some (true, bodyA.playerId)) := by
  cases hA : bodyA.label <;> cases hB : bodyB.label <;>
    simp [pairAttribution, pairHoleBall, hA, hB]

/-! ### C2 — ball count clamping -/

/-- A fixed random stream for concrete evaluations. -/
def zeroRand : ℕ → ℚ × ℚ × ℚ := fun _ => (0, 0, 0)

theorem clampBallCount_nonneg (x : Option ℤ) : 0 ≤ clampBallCount x := by
  rcases x with _ | n
  · decide
  · simp only [clampBallCount, jsBallCount]
    split_ifs <;> omega

/-- C2 counterexample: a start-game request with `ballCount = -3` yields 5
score balls (the negative value is truthy, so it is clamped, not replaced by
the default), while the claim's clamp-after-default gives 15. -/
theorem c2_negative_ball_count :
    (startGameHandler emptyState (some (-3)) zeroRand).1.scoreBalls.length = 5 ∧
    specClampBallCount (some (-3)) = 15 ∧ (5 : ℤ) ≠ 15 := by
  refine ⟨?_, by decide, by decide⟩
  simp [startGameHandler, startGame, clampBallCount, jsBallCount]

/-- C2 (amended): the resulting ScoreBall count equals
`clamp(ballCount, 5, 50)` where only an absent or exactly-zero `ballCount` is
first replaced by the default 15; any other value, negative values included,
is clamped directly (so a negative input yields 5 balls, not 15). -/
theorem c2_ball_count (gs : GameState) (x : Option ℤ) (rand : ℕ → ℚ × ℚ × ℚ) :
    ((startGameHandler gs x rand).1.scoreBalls.length : ℤ) = clampBallCount x ∧
    (startGameHandler gs x rand).2 = clampBallCount x ∧
    clampBallCount none = 15 ∧
    clampBallCount (some 0) = 15 ∧
    (∀ n : ℤ, n ≠ 0 → clampBallCount (some n) = min (max n 5) 50) := by
  refine ⟨?_, rfl, by decide, by decide, ?_⟩
  · have hlen : (startGameHandler gs x rand).1.scoreBalls.length =
        (clampBallCount x).toNat := by
      simp [startGameHandler, startGame]
    rw [hlen, Int.toNat_of_nonneg (clampBallCount_nonneg x)]
  · intro n hn
    simp [clampBallCount, jsBallCount, hn]

/-! ### C8 — startGame frame conditions -/

theorem plookup_mem (m : List (String × Player)) (id : String) (p : Player)
    (h : plookup id m = some p) : (id, p) ∈ m := by
  induction m with
  | nil => cases h
  | cons kv rest ih =>
      by_cases h1 : kv.1 = id
      · simp only [plookup, h1, if_pos] at h
        injection h with h2
        have hkv : kv = (id, p) := Prod.ext h1 h2
        rw [hkv]
        exact List.mem_cons_self _ _
      · simp only [plookup, h1, if_false] at h
        exact List.mem_cons_of_mem kv (ih h)

/-- C8: `startGame` replaces all ball state — the score balls become a fresh
population and the black ball a fresh center ball — while every player entry
is kept with body, name, color and cooldown unchanged and score reset to 0;
afterwards `gameActive` is true and exactly one black ball exists. -/
theorem c8_startGame_frame (gs : GameState) (n : ℕ) (rand : ℕ → ℚ × ℚ × ℚ) :
    (startGame gs n rand).gameActive = true ∧
    (startGame gs n rand).blackBall = some createBlackBall ∧
    (startGame gs n rand).scoreBalls =
      ((List.range n).map fun i => createScoreBall (rand i).1 (rand i).2.1 (rand i).2.2) ∧
    (startGame gs n rand).scoreBalls.length = n ∧
    (∀ id, plookup id (startGame gs n rand).players =
      (plookup id gs.players).map fun p => { p with score := 0 }) ∧
    (∀ id p, plookup id gs.players = some p →
      p.body ∈ worldDynamicBodies (startGame gs n rand)) := by
  refine ⟨rfl, rfl, rfl, by simp [startGame],
    fun id => plookup_map_score gs.players id fun p => { p with score := 0 }, ?_⟩
  intro id p hp
  have hm := plookup_mem gs.players id p hp
  simp only [worldDynamicBodies, startGame, List.map_map, List.mem_append]
  exact Or.inr (List.mem_map.mpr ⟨(id, p), hm, rfl⟩)

/-! ### C10 — initial state -/

/-- C10: at process start `startGame(15)` has already run, so before any
client message the game is active with exactly 15 score balls, a black ball
at the table center, and no players. -/
theorem c10_initial_state (rand : ℕ → ℚ × ℚ × ℚ) :
    (initialState rand).gameActive = true ∧
    (initialState rand).scoreBalls.length = 15 ∧
    (initialState rand).blackBall = some createBlackBall ∧
    createBlackBall.position = (800, 450) ∧
    (initialState rand).players = [] := by
  refine ⟨rfl, ?_, rfl, ?_, rfl⟩
  · simp [initialState, startGame]
  · simp only [createBlackBall, Prod.ext_iff]
    norm_num [TABLE_WIDTH, TABLE_HEIGHT]

/-! ### Respawn position bounds -/

theorem inset_x_bounds (r : ℚ) (h0 : 0 ≤ r) (h1 : r < 1) :
    100 ≤ r * (TABLE_WIDTH - 200) + 100 ∧ r * (TABLE_WIDTH - 200) + 100 ≤ 1500 := by
  have h2 : (TABLE_WIDTH - 200 : ℚ) = 1400 := by norm_num [TABLE_WIDTH]
  rw [h2]
  constructor <;> nlinarith

theorem inset_y_bounds (r : ℚ) (h0 : 0 ≤ r) (h1 : r < 1) :
    100 ≤ r * (TABLE_HEIGHT - 200) + 100 ∧ r * (TABLE_HEIGHT - 200) + 100 ≤ 800 := by
  have h2 : (TABLE_HEIGHT - 200 : ℚ) = 700 := by norm_num [TABLE_HEIGHT]
  rw [h2]
  constructor <;> nlinarith

/-! ### Sample entities for concrete evaluations -/

/-- A connected player `"a"` with score 3 and an elapsed cooldown. -/
def samplePlayerA : Player :=
  { body := samplePlayerBallA, score := 3, cooldown := 0, name := "P-a", color := Color.hsl 0 }

/-- A connected player `"b"` with a negative score. -/
def samplePlayerB : Player :=
  { body := samplePlayerBallB, score := -7, cooldown := 1000, name := "P-b",
    color := Color.hsl 120 }

/-- A `players` object with the two connected players `"a"` and `"b"`. -/
def samplePlayers : List (String × Player) := [("a", samplePlayerA), ("b", samplePlayerB)]

/-- A score ball last touched by `"a"`. -/
def sampleScoreBall : Body :=
  { label := Label.ScoreBall, position := (300, 300), velocity := (2, 0),
    circleRadius := BALL_RADIUS, color := Color.white, playerId := none,
    lastTouchedBy := some "a" }

/-- The black ball, last touched by `"b"`. -/
def sampleBlackBall : Body :=
  { label := Label.BlackBall, position := (500, 300), velocity := (1, 0),
    circleRadius := BLACK_BALL_RADIUS, color := Color.black, playerId := none,
    lastTouchedBy := some "b" }

/-- Player `"a"`'s ball, last touched by `"b"`. -/
def sampleVictimBall : Body :=
  { label := Label.PlayerBall, position := (600, 300), velocity := (0, 0),
    circleRadius := PLAYER_BALL_RADIUS, color := Color.hsl 240, playerId := some "a",
    lastTouchedBy := some "b" }

/-! ### C4 — ScoreBall into a hole -/

/-- C4: on a ScoreBall–Hole contact whose ball names toucher `p`, `p`'s score
rises by exactly 1 when `p` is connected, and no score changes when `p` is
not; in every case the ball is respawned inside the inset rectangle
(x ∈ [100, 1500], y ∈ [100, 800]) with zero velocity and `lastTouchedBy`
cleared, keeping its ScoreBall label (it is repositioned, never removed). -/
theorem c4_scoreball_hole (players : List (String × Player)) (ball : Body) (p : String)
    (rx ry : ℚ)
    (hlabel : ball.label = Label.ScoreBall)
    (htouch : ball.lastTouchedBy = some p)
    (hrx0 : 0 ≤ rx) (hrx1 : rx < 1) (hry0 : 0 ≤ ry) (hry1 : ry < 1) :
    (∀ pp, plookup p players = some pp →
      plookup p (handleHoleCollision players ball rx ry).1 =
        some { pp with score := pp.score + 1 }) ∧
    (plookup p players = none → (handleHoleCollision players ball rx ry).1 = players) ∧
    (∀ q, q ≠ p →
      plookup q (handleHoleCollision players ball rx ry).1 = plookup q players) ∧
    (handleHoleCollision players ball rx ry).2 = respawnScoreBall ball rx ry ∧
    100 ≤ (handleHoleCollision players ball rx ry).2.position.1 ∧
    (handleHoleCollision players ball rx ry).2.position.1 ≤ 1500 ∧
    100 ≤ (handleHoleCollision players ball rx ry).2.position.2 ∧
    (handleHoleCollision players ball rx ry).2.position.2 ≤ 800 ∧
    (handleHoleCollision players ball rx ry).2.velocity = (0, 0) ∧
    (handleHoleCollision players ball rx ry).2.lastTouchedBy = none ∧
    (handleHoleCollision players ball rx ry).2.label = Label.ScoreBall := by
  have hred : handleHoleCollision players ball rx ry =
      ((if (plookup p players).isSome then
          updatePlayer players p fun q => { q with score := q.score + 1 }
        else players), respawnScoreBall ball rx ry) := by
    simp [handleHoleCollision, hlabel, htouch]
  refine ⟨?_, ?_, ?_, ?_, ?_, ?_, ?_, ?_, ?_, ?_, ?_⟩
  · intro pp hpp
    rw [hred]
    simp [hpp, plookup_updatePlayer_self]
  · intro h0
    rw [hred]
    simp [h0]
  · intro q hq
    rw [hred]
    by_cases h : (plookup p players).isSome
    · simp only [h, if_true]
      exact plookup_updatePlayer_ne players p q _ hq
    · simp [h]
  · rw [hred]
  · rw [hred]; exact (inset_x_bounds rx hrx0 hrx1).1
  · rw [hred]; exact (inset_x_bounds rx hrx0 hrx1).2
  · rw [hred]; exact (inset_y_bounds ry hry0 hry1).1
  · rw [hred]; exact (inset_y_bounds ry hry0 hry1).2
  · rw [hred]; rfl
  · rw [hred]; rfl
  · rw [hred]; exact hlabel

/-- C4 witness: player `"a"` is connected with score 3, and the sample score
ball it last touched falling into a hole raises its score to 4. -/
theorem c4_scoreball_hole_witness :
    sampleScoreBall.label = Label.ScoreBall ∧
    sampleScoreBall.lastTouchedBy = some "a" ∧
    plookup "a" samplePlayers = some samplePlayerA ∧
    plookup "a" (handleHoleCollision samplePlayers sampleScoreBall 0 0).1 =
      some { samplePlayerA with score := samplePlayerA.score + 1 } :=
  ⟨rfl, rfl, rfl,
    (c4_scoreball_hole samplePlayers sampleScoreBall "a" 0 0 rfl rfl (by norm_num)
      (by norm_num) (by norm_num) (by norm_num)).1 samplePlayerA rfl⟩

/-! ### C3 — PlayerBall into a hole -/

/-- C3: on a PlayerBall–Hole contact with connected owning player (the
victim) `v`, `v`'s score drops by exactly 5 unconditionally; a player `k`
gains exactly 10 precisely when `ball.lastTouchedBy` names `k`, `k ≠ v` and
`k` is connected, and every other player's entry is untouched; the ball is
respawned at a random inset point with zero velocity and `lastTouchedBy`
cleared, and `v`'s session remains. -/
theorem c3_player_hole (players : List (String × Player)) (ball : Body) (v : String)
    (pv : Player) (rx ry : ℚ)
    (hlabel : ball.label = Label.PlayerBall)
    (hpid : ball.playerId = some v)
    (hv : plookup v players = some pv)
    (hrx0 : 0 ≤ rx) (hrx1 : rx < 1) (hry0 : 0 ≤ ry) (hry1 : ry < 1) :
    plookup v (handleHoleCollision players ball rx ry).1 =
      some { pv with score := pv.score - 5 } ∧
    (∀ k pk, ball.lastTouchedBy = some k → k ≠ v → plookup k players = some pk →
      plookup k (handleHoleCollision players ball rx ry).1 =
        some { pk with score := pk.score + 10 }) ∧
    (∀ q, q ≠ v → (ball.lastTouchedBy = some q → plookup q players = none) →
      plookup q (handleHoleCollision players ball rx ry).1 = plookup q players) ∧
    (handleHoleCollision players ball rx ry).2 = respawnPlayer ball rx ry ∧
    100 ≤ (handleHoleCollision players ball rx ry).2.position.1 ∧
    (handleHoleCollision players ball rx ry).2.position.1 ≤ 1500 ∧
    100 ≤ (handleHoleCollision players ball rx ry).2.position.2 ∧
    (handleHoleCollision players ball rx ry).2.position.2 ≤ 800 ∧
    (handleHoleCollision players ball rx ry).2.velocity = (0, 0) ∧
    (handleHoleCollision players ball rx ry).2.lastTouchedBy = none := by
  have hred : handleHoleCollision players ball rx ry =
      ((match ball.lastTouchedBy with
        | some killerId =>
            if killerId ≠ v ∧
                (plookup killerId
                  (updatePlayer players v fun p => { p with score := p.score - 5 })).isSome then
              updatePlayer (updatePlayer players v fun p => { p with score := p.score - 5 })
                killerId fun p => { p with score := p.score + 10 }
            else updatePlayer players v fun p => { p with score := p.score - 5 }
        | none => updatePlayer players v fun p => { p with score := p.score - 5 }),
       respawnPlayer ball rx ry) := by
    simp [handleHoleCollision, hlabel, hpid, hv]
  have hvfinal : plookup v (handleHoleCollision players ball rx ry).1 =
      some { pv with score := pv.score - 5 } := by
    rw [hred]
    rcases hlt : ball.lastTouchedBy with _ | k
    · simp [plookup_updatePlayer_self, hv]
    · show plookup v (if _ then _ else _) = _
      by_cases hc : k ≠ v ∧
          (plookup k (updatePlayer players v fun p => { p with score := p.score - 5 })).isSome
      · rw [if_pos hc, plookup_updatePlayer_ne _ k v _ (fun e => hc.1 e.symm)]
        simp [plookup_updatePlayer_self, hv]
      · rw [if_neg hc]
        simp [plookup_updatePlayer_self, hv]
  refine ⟨hvfinal, ?_, ?_, ?_, ?_, ?_, ?_, ?_, ?_, ?_⟩
  · intro k pk hlt hkv hk
    rw [hred]
    have hk1 : plookup k (updatePlayer players v fun p => { p with score := p.score - 5 }) =
        some pk := by
      rw [plookup_updatePlayer_ne _ v k _ hkv]; exact hk
    have hc : k ≠ v ∧
        (plookup k (updatePlayer players v fun p => { p with score := p.score - 5 })).isSome := by
      refine ⟨hkv, ?_⟩; rw [hk1]; rfl
    simp only [hlt]
    show plookup k (if _ then _ else _) = _
    rw [if_pos hc, plookup_updatePlayer_self, hk1]
    rfl
  · intro q hqv hq
    rw [hred]
    rcases hlt : ball.lastTouchedBy with _ | k
    · show plookup q (updatePlayer players v fun p => { p with score := p.score - 5 }) =
          plookup q players
      exact plookup_updatePlayer_ne _ v q _ hqv
    · show plookup q (if _ then _ else _) = _
      by_cases hc : k ≠ v ∧
          (plookup k (updatePlayer players v fun p => { p with score := p.score - 5 })).isSome
      · rw [if_pos hc]
        by_cases hqk : q = k
        · subst hqk
          have h0 := hq hlt
          rw [plookup_updatePlayer_ne _ v q _ hqv, h0] at hc
          simp at hc
        · rw [plookup_updatePlayer_ne _ k q _ hqk]
          exact plookup_updatePlayer_ne _ v q _ hqv
      · rw [if_neg hc]
        exact plookup_updatePlayer_ne _ v q _ hqv
  · rw [hred]
  · rw [hred]; exact (inset_x_bounds rx hrx0 hrx1).1
  · rw [hred]; exact (inset_x_bounds rx hrx0 hrx1).2
  · rw [hred]; exact (inset_y_bounds ry hry0 hry1).1
  · rw [hred]; exact (inset_y_bounds ry hry0 hry1).2
  · rw [hred]; rfl
  · rw [hred]; rfl

/-- C3 witness: victim `"a"` (score 3, last touched by connected `"b"`) falls
into a hole: `"a"` drops to -2 and `"b"` (score -7) gains 10. -/
theorem c3_player_hole_witness :
    sampleVictimBall.label = Label.PlayerBall ∧
    sampleVictimBall.playerId = some "a" ∧
    sampleVictimBall.lastTouchedBy = some "b" ∧
    plookup "a" (handleHoleCollision samplePlayers sampleVictimBall 0 0).1 =
      some { samplePlayerA with score := samplePlayerA.score - 5 } ∧
    plookup "b" (handleHoleCollision samplePlayers sampleVictimBall 0 0).1 =
      some { samplePlayerB with score := samplePlayerB.score + 10 } :=
  ⟨rfl, rfl, rfl,
    (c3_player_hole samplePlayers sampleVictimBall "a" samplePlayerA 0 0 rfl rfl rfl
      (by norm_num) (by norm_num) (by norm_num) (by norm_num)).1,
    (c3_player_hole samplePlayers sampleVictimBall "a" samplePlayerA 0 0 rfl rfl rfl
      (by norm_num) (by norm_num) (by norm_num) (by norm_num)).2.1 "b" samplePlayerB rfl
      (by decide) rfl⟩

/-! ### C5 — BlackBall into a hole -/

/-- C5: on a BlackBall–Hole contact whose ball names a connected toucher `p`,
`p`'s score is set to exactly 0 (an assignment, whatever its prior value,
negative included), other players are untouched, and the ball is repositioned
to the table center (800, 450) with zero velocity and `lastTouchedBy`
cleared. -/
theorem c5_blackball_hole (players : List (String × Player)) (ball : Body) (p : String)
    (pp : Player) (rx ry : ℚ)
    (hlabel : ball.label = Label.BlackBall)
    (htouch : ball.lastTouchedBy = some p)
    (hp : plookup p players = some pp) :
    plookup p (handleHoleCollision players ball rx ry).1 = some { pp with score := 0 } ∧
    (∀ q, q ≠ p →
      plookup q (handleHoleCollision players ball rx ry).1 = plookup q players) ∧
    (handleHoleCollision players ball rx ry).2 = respawnBlackBall ball ∧
    (handleHoleCollision players ball rx ry).2.position = (800, 450) ∧
    (handleHoleCollision players ball rx ry).2.velocity = (0, 0) ∧
    (handleHoleCollision players ball rx ry).2.lastTouchedBy = none := by
  have hred : handleHoleCollision players ball rx ry =
      (updatePlayer players p fun q => { q with score := 0 }, respawnBlackBall ball) := by
    simp [handleHoleCollision, hlabel, htouch, hp]
  refine ⟨?_, ?_, ?_, ?_, ?_, ?_⟩
  · rw [hred]
    simp [plookup_updatePlayer_self, hp]
  · intro q hq
    rw [hred]
    show plookup q (updatePlayer players p fun r => { r with score := 0 }) = plookup q players
    exact plookup_updatePlayer_ne _ p q _ hq
  · rw [hred]
  · rw [hred]
    show (TABLE_WIDTH / 2, TABLE_HEIGHT / 2) = ((800 : ℚ), (450 : ℚ))
    norm_num [TABLE_WIDTH, TABLE_HEIGHT]
  · rw [hred]; rfl
  · rw [hred]; rfl

/-- C5 witness: the black ball last touched by `"b"`, whose score is -7,
falls into a hole: `"b"`'s score is set to 0, not decremented. -/
theorem c5_blackball_hole_witness :
    samplePlayerB.score = -7 ∧
    sampleBlackBall.lastTouchedBy = some "b" ∧
    plookup "b" (handleHoleCollision samplePlayers sampleBlackBall 0 0).1 =
      some { samplePlayerB with score := 0 } :=
  ⟨rfl, rfl,
    (c5_blackball_hole samplePlayers sampleBlackBall "b" samplePlayerB 0 0 rfl rfl rfl).1⟩

/-! ### C6 — shoot cooldown gate -/

/-- C6: a shoot before `cooldownExpiry` is silently dropped (no force, no
notification, no state change); an accepted shoot applies the force
`(cos(angle)·force·0.3, sin(angle)·force·0.3)` at the body's position, sets
the cooldown to `now + 750` and notifies the sender of the 750 ms duration;
hence a second shoot within the window is a complete no-op and the force is
applied exactly once. -/
theorem c6_shoot_cooldown (cosF sinF : ℚ → ℚ) (players : List (String × Player))
    (id : String) (p : Player) (f a : ℚ) (t t2 : ℕ)
    (hp : plookup id players = some p)
    (h1 : p.cooldown ≤ t)
    (h2 : t2 < t + COOLDOWN_TIME) :
    (shoot cosF sinF players id ⟨some f, some a⟩ t).2.1 =
      some (p.body.position, (cosF a * (f * (3/10)), sinF a * (f * (3/10)))) ∧
    (shoot cosF sinF players id ⟨some f, some a⟩ t).2.2 = some COOLDOWN_TIME ∧
    plookup id (shoot cosF sinF players id ⟨some f, some a⟩ t).1 =
      some { p with cooldown := t + COOLDOWN_TIME } ∧
    (∀ d : ShootData,
      shoot cosF sinF (shoot cosF sinF players id ⟨some f, some a⟩ t).1 id d t2 =
        ((shoot cosF sinF players id ⟨some f, some a⟩ t).1, none, none)) ∧
    (∀ (m : List (String × Player)) (q : Player) (d : ShootData) (t3 : ℕ),
      plookup id m = some q → t3 < q.cooldown →
        shoot cosF sinF m id d t3 = (m, none, none)) := by
  have hdrop : ∀ (m : List (String × Player)) (q : Player) (d : ShootData) (t3 : ℕ),
      plookup id m = some q → t3 < q.cooldown →
        shoot cosF sinF m id d t3 = (m, none, none) := by
    intro m q d t3 hq ht
    have hnot : ¬(q.cooldown ≤ t3) := not_le.mpr ht
    simp [shoot, hq, hnot]
  have hfirst : shoot cosF sinF players id ⟨some f, some a⟩ t =
      (updatePlayer players id fun q => { q with cooldown := t + COOLDOWN_TIME },
       some (p.body.position, (cosF a * (f * (3/10)), sinF a * (f * (3/10)))),
       some COOLDOWN_TIME) := by
    simp [shoot, hp, h1]
  have hafter : plookup id (shoot cosF sinF players id ⟨some f, some a⟩ t).1 =
      some { p with cooldown := t + COOLDOWN_TIME } := by
    rw [hfirst]
    show plookup id (updatePlayer players id fun q =>
      { q with cooldown := t + COOLDOWN_TIME }) = _
    rw [plookup_updatePlayer_self, hp]
    rfl
  refine ⟨by rw [hfirst], by rw [hfirst], hafter, ?_, hdrop⟩
  intro d
  exact hdrop _ _ d t2 hafter h2

/-- C6 witness: player `"a"` (cooldown 0) shoots at t = 1000 and is notified
of the 750 ms cooldown; an identical shoot at t = 1200, inside the window,
changes nothing and produces no force and no notification. -/
theorem c6_shoot_cooldown_witness :
    plookup "a" samplePlayers = some samplePlayerA ∧
    samplePlayerA.cooldown ≤ 1000 ∧
    (1200 : ℕ) < 1000 + COOLDOWN_TIME ∧
    (shoot (fun _ => 1) (fun _ => 0) samplePlayers "a" ⟨some 2, some 0⟩ 1000).2.2 =
      some COOLDOWN_TIME ∧
    shoot (fun _ => 1) (fun _ => 0)
        (shoot (fun _ => 1) (fun _ => 0) samplePlayers "a" ⟨some 2, some 0⟩ 1000).1 "a"
        ⟨some 2, some 0⟩ 1200 =
      ((shoot (fun _ => 1) (fun _ => 0) samplePlayers "a" ⟨some 2, some 0⟩ 1000).1,
        none, none) :=
  ⟨rfl, by decide, by decide,
    (c6_shoot_cooldown (fun _ => 1) (fun _ => 0) samplePlayers "a" samplePlayerA 2 0
      1000 1200 rfl (by decide) (by decide)).2.1,
    (c6_shoot_cooldown (fun _ => 1) (fun _ => 0) samplePlayers "a" samplePlayerA 2 0
      1000 1200 rfl (by decide) (by decide)).2.2.2.1 ⟨some 2, some 0⟩⟩

/-! ### C7 — join-game idempotence -/

/-- C7: for an id with no session (and no body of its own in the world yet),
`joinGame` creates exactly one `players` entry — with score 0 and an
already-elapsed cooldown — and exactly one PlayerBall bearing that id, and a
second `joinGame` for the same id is a complete no-op. -/
theorem c7_join_idempotent (gs : GameState) (id : String) (r1h r1x r1y r2h r2x r2y : ℚ)
    (hnew : plookup id gs.players = none)
    (hworld : ∀ b ∈ worldDynamicBodies gs, b.playerId ≠ some id) :
    joinGame (joinGame gs id r1h r1x r1y) id r2h r2x r2y = joinGame gs id r1h r1x r1y ∧
    ((joinGame gs id r1h r1x r1y).players.countP fun kv => kv.1 == id) = 1 ∧
    ((worldDynamicBodies (joinGame gs id r1h r1x r1y)).countP
        fun b => b.playerId == some id) = 1 ∧
    (∃ r, plookup id (joinGame gs id r1h r1x r1y).players = some r ∧
      r.score = 0 ∧ r.cooldown = 0) := by
  have hj1 : joinGame gs id r1h r1x r1y =
      { gs with players := gs.players ++
          [(id, { body := createPlayerBall id ⌊r1h * 360⌋ r1x r1y, score := 0, cooldown := 0,
                  name := "P-" ++ id.take 4, color := Color.hsl ⌊r1h * 360⌋ })] } := by
    simp [joinGame, hnew]
  have hlook : plookup id (joinGame gs id r1h r1x r1y).players =
      some { body := createPlayerBall id ⌊r1h * 360⌋ r1x r1y, score := 0, cooldown := 0,
             name := "P-" ++ id.take 4, color := Color.hsl ⌊r1h * 360⌋ } := by
    rw [hj1]
    exact plookup_append_new gs.players id _ hnew
  refine ⟨?_, ?_, ?_, ⟨_, hlook, rfl, rfl⟩⟩
  · rw [joinGame, hlook]
    simp
  · rw [hj1]
    have h0 : (gs.players.countP fun kv => kv.1 == id) = 0 := by
      rw [List.countP_eq_zero]
      intro kv hkv
      simpa using plookup_none_mem gs.players id hnew kv hkv
    simp [List.countP_append, h0]
  · have hw : worldDynamicBodies (joinGame gs id r1h r1x r1y) =
        worldDynamicBodies gs ++ [createPlayerBall id ⌊r1h * 360⌋ r1x r1y] := by
      rw [hj1]
      simp [worldDynamicBodies, List.append_assoc]
    rw [hw]
    have h0 : ((worldDynamicBodies gs).countP fun b => b.playerId == some id) = 0 := by
      rw [List.countP_eq_zero]
      intro b hb
      simpa using hworld b hb
    simp [List.countP_append, h0, createPlayerBall]

/-- C7 witness: a fresh id `"c"` joining twice on the empty initial globals
leaves exactly one entry, and the second join changes nothing. -/
theorem c7_join_idempotent_witness :
    plookup "c" emptyState.players = none ∧
    joinGame (joinGame emptyState "c" 0 0 0) "c" (1/2) (1/2) (1/2) =
      joinGame emptyState "c" 0 0 0 ∧
    ((joinGame emptyState "c" 0 0 0).players.countP fun kv => kv.1 == "c") = 1 :=
  ⟨rfl,
    (c7_join_idempotent emptyState "c" 0 0 0 (1/2) (1/2) (1/2) rfl (by decide)).1,
    (c7_join_idempotent emptyState "c" 0 0 0 (1/2) (1/2) (1/2) rfl (by decide)).2.1⟩

/-! ### C9 — silent no-ops and missing-field defaults -/

/-- C9: a shoot or disconnect naming an id with no session is a silent no-op
(state returned unchanged, no force, no notification), and a shoot whose
`force` or `angle` field is absent behaves exactly as if that field were 0 —
in particular a missing `force` yields the zero force vector, not an error. -/
theorem c9_unknown_and_defaults (cosF sinF : ℚ → ℚ) (players : List (String × Player))
    (gs : GameState) (id : String) (d : ShootData) (t : ℕ) :
    (plookup id players = none → shoot cosF sinF players id d t = (players, none, none)) ∧
    (plookup id gs.players = none → disconnect gs id = gs) ∧
    (shoot cosF sinF players id ⟨none, d.angle⟩ t =
      shoot cosF sinF players id ⟨some 0, d.angle⟩ t) ∧
    (shoot cosF sinF players id ⟨d.force, none⟩ t =
      shoot cosF sinF players id ⟨d.force, some 0⟩ t) ∧
    (∀ p, plookup id players = some p → p.cooldown ≤ t →
      (shoot cosF sinF players id ⟨none, d.angle⟩ t).2.1 =
        some (p.body.position, (0, 0))) := by
  refine ⟨?_, ?_, rfl, rfl, ?_⟩
  · intro h
    simp [shoot, h]
  · intro h
    simp [disconnect, h]
  · intro p hp h1
    simp [shoot, hp, h1]

/-- C9 witness: the unknown id `"z"` shooting and disconnecting are no-ops. -/
theorem c9_unknown_and_defaults_witness :
    plookup "z" samplePlayers = none ∧
    shoot (fun _ => 1) (fun _ => 0) samplePlayers "z" ⟨none, none⟩ 0 =
      (samplePlayers, none, none) ∧
    disconnect emptyState "z" = emptyState :=
  ⟨rfl,
    (c9_unknown_and_defaults (fun _ => 1) (fun _ => 0) samplePlayers emptyState "z"
      ⟨none, none⟩ 0).1 rfl,
    (c9_unknown_and_defaults (fun _ => 1) (fun _ => 0) samplePlayers emptyState "z"
      ⟨none, none⟩ 0).2.1 rfl⟩

end Billiard
